import Mathlib

/-!
Verification of the literature-monitor core pipeline.

The development shallowly embeds the paper store (`src/database.py`), the
ranking post-processing (`src/ranker.py`), the feedback example selector
(`src/feedback.py`) and the local keyword matcher of the preprint source
adapter (`src/sources/biorxiv.py`).  The SQLite-backed store is modelled as
a list of rows in insertion order; SQL `ORDER BY` is modelled by a merge
sort on the same key; Python floats are modelled as rationals; `NULL`able
columns are `Option`s; wall-clock timestamps are threaded as explicit
`now` parameters.
-/

namespace LitMonitor

/-- The Paper dataclass of `src/sources/pubmed.py` (the canonical record
every source adapter produces). -/
structure Paper where
  id : String
  source : String
  title : String
  authors : List String
  journal : String
  pub_date : String
  abstract : String
  url : String
  full_text_url : Option String := none
  is_open_access : Bool := false
  doi : Option String := none
  summary : Option String := none
  relevance_score : Option ℚ := none
  ranking_rationale : Option String := none
  matched_projects : List String := []
deriving DecidableEq

/-- One row of the `papers` table of `src/database.py` (schema plus the
feedback-related migration columns). -/
structure StoredPaper where
  id : String
  source : String
  title : String
  authors : List String
  journal : String
  pub_date : String
  abstract : String
  url : String
  full_text_url : Option String
  is_open_access : Bool
  doi : Option String
  summary : Option String
  relevance_score : Option ℚ
  ranking_rationale : Option String
  matched_projects : Option (List String)
  first_seen_date : Option String
  added_to_zotero : Bool
  user_read : Bool
  created_at : String
  updated_at : String
  user_feedback : Option String
  feedback_date : Option String
  is_seed : Bool
  seed_source : Option String
  last_digest_date : Option String
deriving DecidableEq

/-- The papers table: rows in insertion order. -/
abbrev DB := List StoredPaper

/-- `PaperDatabase.paper_exists`: `SELECT 1 FROM papers WHERE id = ?`. -/
def paper_exists (db : DB) (paper_id : String) : Bool :=
  db.any (fun r => decide (r.id = paper_id))

/-- `PaperDatabase.doi_exists`: returns False on a falsy DOI, otherwise
`SELECT 1 FROM papers WHERE doi = ? AND doi IS NOT NULL`. -/
def doi_exists (db : DB) (doi : String) : Bool :=
  if doi = "" then false
  else db.any (fun r => decide (r.doi = some doi))

/-- The row built by the INSERT statement of `PaperDatabase.insert_paper`:
paper fields, `first_seen_date = now`, the remaining columns at their
schema defaults (`created_at`/`updated_at` = CURRENT_TIMESTAMP). -/
def mkRow (p : Paper) (now : String) : StoredPaper :=
  { id := p.id
    source := p.source
    title := p.title
    authors := p.authors
    journal := p.journal
    pub_date := p.pub_date
    abstract := p.abstract
    url := p.url
    full_text_url := p.full_text_url
    is_open_access := p.is_open_access
    doi := p.doi
    summary := p.summary
    relevance_score := p.relevance_score
    ranking_rationale := p.ranking_rationale
    matched_projects :=
      if p.matched_projects = [] then none else some p.matched_projects
    first_seen_date := some now
    added_to_zotero := false
    user_read := false
    created_at := now
    updated_at := now
    user_feedback := none
    feedback_date := none
    is_seed := false
    seed_source := none
    last_digest_date := none }

/-- `PaperDatabase.insert_paper`: skip when the id already exists, skip when
the record carries a truthy DOI that already exists (cross-source dedup),
otherwise append the new row.  Returns (inserted?, new store). -/
def insert_paper (db : DB) (p : Paper) (now : String) : Bool × DB :=
  if paper_exists db p.id then (false, db)
  else if (match p.doi with
           | some d => decide (d ≠ "") && doi_exists db d
           | none => false) then (false, db)
  else (true, db ++ [mkRow p now])

/-- `PaperDatabase.update_paper_ranking`: UPDATE the ranking columns of every
row whose id matches (`updated_at` = CURRENT_TIMESTAMP). -/
def update_paper_ranking (db : DB) (paper_id : String) (summary : String)
    (relevance_score : ℚ) (ranking_rationale : String)
    (matched_projects : List String) (now : String) : DB :=
  db.map (fun r =>
    if r.id = paper_id then
      { r with
        summary := some summary
        relevance_score := some relevance_score
        ranking_rationale := some ranking_rationale
        matched_projects := some matched_projects
        updated_at := now }
    else r)

/-- Byte-order comparison on strings, the way SQLite compares TEXT values
(memcmp on the encoding): used for the `first_seen_date >= ?` filters. -/
def bytesLe : List Char → List Char → Bool
  | [], _ => true
  | _ :: _, [] => false
  | a :: as, b :: bs =>
      if a = b then bytesLe as bs else decide (a.toNat < b.toNat)

/-- SQL `relevance_score DESC NULLS LAST` as a total Boolean preorder on the
score column. -/
def nullsLastDescLe : Option ℚ → Option ℚ → Bool
  | none, none => true
  | none, some _ => false
  | some _, none => true
  | some s, some t => decide (t ≤ s)

/-- The WHERE clause `first_seen_date >= ?` (NULL compares to nothing). -/
def sinceFilter (since : String) (r : StoredPaper) : Bool :=
  match r.first_seen_date with
  | some d => bytesLe since.data d.data
  | none => false

/-- The optional WHERE clause `relevance_score >= ?` (a NULL score fails the
comparison, so unscored rows drop out when a minimum is given). -/
def minScoreFilter (min_score : Option ℚ) (r : StoredPaper) : Bool :=
  match min_score with
  | none => true
  | some m =>
      match r.relevance_score with
      | some s => decide (m ≤ s)
      | none => false

/-- `PaperDatabase.get_papers_since`: filter by first-seen window and
optional minimum score, `ORDER BY relevance_score DESC NULLS LAST`, then
apply the optional LIMIT (Python `if limit:` skips a falsy 0). -/
def get_papers_since (db : DB) (since : String) (min_score : Option ℚ)
    (lim : Option Nat) : List StoredPaper :=
  let filtered := db.filter (fun r => sinceFilter since r && minScoreFilter min_score r)
  let sorted := filtered.mergeSort
    (fun a b => nullsLastDescLe a.relevance_score b.relevance_score)
  match lim with
  | none => sorted
  | some n => if n = 0 then sorted else sorted.take n

/-- `PaperDatabase.mark_papers_digested`: one UPDATE per id, each setting
`last_digest_date = now` on every row with that id. -/
def mark_papers_digested (db : DB) (paper_ids : List String) (now : String) : DB :=
  paper_ids.foldl
    (fun acc pid =>
      acc.map (fun r =>
        if r.id = pid then { r with last_digest_date := some now } else r))
    db

/-- `PaperDatabase.get_papers_for_digest`: the windowed query restricted to
`last_digest_date IS NULL AND (is_seed IS NULL OR is_seed = FALSE)`,
ordered `relevance_score DESC NULLS LAST`, no LIMIT. -/
def get_papers_for_digest (db : DB) (since : String)
    (min_score : Option ℚ) : List StoredPaper :=
  let filtered := db.filter (fun r =>
    sinceFilter since r && (r.last_digest_date = none : Bool)
      && (r.is_seed = false : Bool) && minScoreFilter min_score r)
  filtered.mergeSort
    (fun a b => nullsLastDescLe a.relevance_score b.relevance_score)

/-- `PaperDatabase.insert_seed_paper`: when the id exists, promote the row to
seed status, star it, and return False; otherwise insert a new seed row. -/
def insert_seed_paper (db : DB) (p : Paper) (source : String) (now : String) :
    Bool × DB :=
  if paper_exists db p.id then
    (false,
     db.map (fun r =>
       if r.id = p.id then
         { r with
           is_seed := true
           seed_source := some source
           user_feedback := some "star"
           feedback_date := some now
           updated_at := now }
       else r))
  else
    (true,
     db ++ [{ mkRow p now with
              is_seed := true
              seed_source := some source
              user_feedback := some "star"
              feedback_date := some now }])

/-! ### Concrete sample records used by witnesses and counterexamples -/

/-- A record as the primary index would produce it. -/
def samplePaperA : Paper :=
  { id := "A1", source := "pubmed", title := "Tau", authors := [], journal := "J",
    pub_date := "2026-01-01", abstract := "", url := "u1", doi := some "10.1/x" }

/-- The same work under a preprint identifier: different id, same DOI. -/
def samplePaperB : Paper :=
  { id := "B2", source := "biorxiv", title := "Tau", authors := [], journal := "J",
    pub_date := "2026-01-02", abstract := "", url := "u2", doi := some "10.1/x" }

/-! ### Ranking engine (`src/ranker.py`) -/

/-- A journal tier of `src/config_loader.py`: a weight multiplier and the
journals it applies to. -/
structure JournalTier where
  weight : ℚ
  journals : List String
deriving DecidableEq

/-- `Config.get_journal_weight`: the weight of the first configured tier
listing the journal, defaulting to 1.0. -/
def get_journal_weight (tiers : List JournalTier) (journal_name : String) : ℚ :=
  match tiers.find? (fun t => journal_name ∈ t.journals) with
  | some t => t.weight
  | none => 1

/-- The fields `PaperRanker.rank_paper` reads off the decoded JSON object
(each access is a `.get` with a default, so every field is optional). -/
structure OracleData where
  summary : Option String
  relevance_score : Option ℚ
  ranking_rationale : Option String
  matched_projects : Option (List String)
deriving DecidableEq

/-- `RankingResult` of `src/ranker.py`. -/
structure RankingResult where
  summary : String
  relevance_score : ℚ
  ranking_rationale : String
  matched_projects : List String
deriving DecidableEq

/-- The markdown-fence stripping of `PaperRanker.rank_paper`: when the
(stripped) response starts with a fence, keep the text between the first
fence pair, drop a leading "json" tag, and strip again. -/
def stripCodeFence (content : String) : String :=
  if content.startsWith "```" then
    let mid := (content.splitOn "```").getD 1 ""
    let mid := if mid.startsWith "json" then mid.drop 4 else mid
    mid.trim
  else content

/-- `PaperRanker.rank_paper` after the oracle call: strip the response,
strip an incidental code fence, attempt the structural parse (`json.loads`
is the black-box `parse` argument); on failure return the fixed fallback
result, on success read the fields with their defaults and clamp
`raw_score * journal_weight` to at most 1.0. -/
def rank_paper (parse : String → Option OracleData)
    (tiers : List JournalTier) (journal raw : String) : RankingResult :=
  let content := stripCodeFence raw.trim
  match parse content with
  | none =>
      { summary := "[Failed to generate summary]"
        relevance_score := 1/2
        ranking_rationale := "[Failed to parse ranking response]"
        matched_projects := [] }
  | some data =>
      let raw_score := data.relevance_score.getD (1/2)
      let journal_weight := get_journal_weight tiers journal
      let adjusted_score := min 1 (raw_score * journal_weight)
      { summary := data.summary.getD ""
        relevance_score := adjusted_score
        ranking_rationale := data.ranking_rationale.getD ""
        matched_projects := data.matched_projects.getD [] }

/-! ### Digest exclusion (C6) -/

/-- One call of `PaperDatabase.update_paper_ranking` as performed by
`rank_and_update_db` in `src/ranker.py` (one per ranked paper). -/
structure RankingUpdate where
  paper_id : String
  summary : String
  relevance_score : ℚ
  ranking_rationale : String
  matched_projects : List String
  now : String

/-- A sequence of later score updates applied to the store. -/
def applyRankingUpdates (db : DB) (updates : List RankingUpdate) : DB :=
  updates.foldl
    (fun acc u => update_paper_ranking acc u.paper_id u.summary
      u.relevance_score u.ranking_rationale u.matched_projects u.now)
    db

/-! ### Feedback selector (`src/feedback.py`) -/

/-- The projection of a feedback paper that `_select_examples` reads: the
score column, the `_user_feedback` attribute attached by `_row_to_paper`,
and the matched-project list. -/
structure FBPaper where
  relevance_score : Option ℚ
  user_feedback : Option String
  matched_projects : List String
deriving DecidableEq

/-- The `informativeness` key of `_select_examples`: Python
`paper.relevance_score or 0.5` falls back to 0.5 on a falsy score (both
`None` and 0.0), then starred papers score `1 - score` and all others
`score`. -/
def informativeness (p : FBPaper) : ℚ :=
  let score : ℚ :=
    match p.relevance_score with
    | some s => if s = 0 then 1/2 else s
    | none => 1/2
  if p.user_feedback = some "star" then 1 - score else score

/-- `sorted(papers, key=informativeness, reverse=True)`. -/
def sortedByInformativeness (papers : List FBPaper) : List FBPaper :=
  papers.mergeSort (fun a b => decide (informativeness b ≤ informativeness a))

/-- The selection loop of `_select_examples`: stop at `max_count`, compute
the project-diversity flag, and take the candidate when it brings a new
project or the quota is not yet filled. -/
def selectGo (max_count : Nat) :
    List FBPaper → List FBPaper → List String → List FBPaper
  | [], selected, _ => selected
  | p :: rest, selected, seen =>
    if max_count ≤ selected.length then selected
    else
      let pp := p.matched_projects
      let is_new_project := pp.isEmpty || !(pp.all (fun x => decide (x ∈ seen)))
      if is_new_project || decide (selected.length < max_count) then
        selectGo max_count rest (selected ++ [p]) (seen ++ pp)
      else
        selectGo max_count rest selected seen

/-- `_select_examples`: empty input short-circuits, otherwise sort by
informativeness descending and run the selection loop. -/
def select_examples (papers : List FBPaper) (max_count : Nat) : List FBPaper :=
  if papers.isEmpty then []
  else selectGo max_count (sortedByInformativeness papers) [] []

/-- The sample input of the C8 counterexample: a dismissed paper whose
stored relevance score is exactly 0.0. -/
def dismissedZeroScorePaper : FBPaper :=
  { relevance_score := some 0, user_feedback := some "dismiss",
    matched_projects := [] }

/-! ### Local keyword matcher (`src/sources/biorxiv.py`) -/

/-- Python `str.lower`, per character. -/
def lowerChars (s : String) : List Char := s.data.map Char.toLower

/-- Python substring containment `needle in hay`. -/
def strContains : List Char → List Char → Bool
  | [], needle => needle.isEmpty
  | c :: t, needle => needle.isPrefixOf (c :: t) || strContains t needle

/-- The phrase scanner of `_matches_query`: the combined left-to-right
effect of `re.findall` and `re.sub` with the pattern quote, one-or-more
non-quotes, quote — each match captures the inner run and is removed from
the remainder; a quote that opens no match stays in the remainder. -/
def scanPhrases : List Char → List (List Char) × List Char
  | [] => ([], [])
  | c :: rest =>
    if c = '"' then
      match h2 : rest.dropWhile (fun x => !decide (x = '"')) with
      | '"' :: tail =>
          if (rest.takeWhile (fun x => !decide (x = '"'))).isEmpty then
            let r := scanPhrases rest
            (r.1, c :: r.2)
          else
            let r := scanPhrases tail
            ((rest.takeWhile (fun x => !decide (x = '"'))) :: r.1, r.2)
      | _ => ([], c :: rest)
    else
      let r := scanPhrases rest
      (r.1, c :: r.2)
termination_by l => l.length
decreasing_by
  · simp
  · have hle : (rest.dropWhile (fun x => !decide (x = '"'))).length ≤ rest.length :=
      (List.dropWhile_sublist _).length_le
    rw [h2] at hle
    simp at hle ⊢
    omega
  · simp

/-- Python `remaining.split()` keeping only non-empty pieces (the
list-comprehension filter of `_matches_query`). -/
def splitWsTerms (l : List Char) : List (List Char) :=
  (List.splitOnP (fun ch => ch.isWhitespace) l).filter (fun t => !t.isEmpty)

/-- The haystack of `_matches_query`: lowered title, a joining space,
lowered abstract. -/
def searchText (title abstract : String) : List Char :=
  lowerChars title ++ ' ' :: lowerChars abstract

/-- `BioRxivClient._matches_query`: lower the query, extract quoted phrases
and remaining bare terms, and require every phrase and every term to be a
substring of the joined title-and-abstract text. -/
def matchesQuery (title abstract query : String) : Bool :=
  let scanned := scanPhrases (lowerChars query)
  let text := searchText title abstract
  scanned.1.all (fun ph => strContains text ph)
    && (splitWsTerms scanned.2).all (fun tm => strContains text tm)

/-! ### Theorems -/

/-! ### Store lemmas -/

theorem filter_id_nil_of_not_exists (db : DB) (x : String)
    (hex : paper_exists db x = false) :
    db.filter (fun r => decide (r.id = x)) = [] := by
  rw [List.filter_eq_nil_iff]
  intro r hr
  unfold paper_exists at hex
  rw [List.any_eq_false] at hex
  simpa using hex r hr

theorem filter_id_length_one_of_nodup (db : DB) (x : String)
    (hnd : (db.map StoredPaper.id).Nodup)
    (hex : paper_exists db x = true) :
    (db.filter (fun r => decide (r.id = x))).length = 1 := by
  induction db with
  | nil => simp [paper_exists] at hex
  | cons r rest ih =>
    simp only [List.map_cons, List.nodup_cons] at hnd
    by_cases h : r.id = x
    · have hrest : rest.filter (fun s => decide (s.id = x)) = [] := by
        rw [List.filter_eq_nil_iff]
        intro s hs
        simp only [decide_eq_true_eq]
        intro hsx
        exact hnd.1 (h ▸ hsx ▸ List.mem_map_of_mem StoredPaper.id hs)
      simp [List.filter_cons, h, hrest]
    · have hex' : paper_exists rest x = true := by
        unfold paper_exists at hex ⊢
        simpa [h] using hex
      simpa [List.filter_cons, h] using ih hnd.2 hex'

/-- C1: two Paper Records with different ids but the same non-empty DOI,
inserted in either order, leave exactly one stored row carrying that DOI,
namely the row of whichever record was inserted first; the second insert
returns False and stores nothing.  (Either order is obtained by
instantiating the symmetric pair (p, q) both ways.) -/
theorem insert_paper_cross_source_doi_merge
    (db : DB) (p q : Paper) (d now1 now2 : String)
    (hid : p.id ≠ q.id)
    (hpd : p.doi = some d) (hqd : q.doi = some d) (hd : d ≠ "")
    (hp : paper_exists db p.id = false)
    (hq : paper_exists db q.id = false)
    (hdoi : doi_exists db d = false) :
    (insert_paper db p now1).1 = true ∧
    (insert_paper (insert_paper db p now1).2 q now2).1 = false ∧
    (insert_paper (insert_paper db p now1).2 q now2).2 = (insert_paper db p now1).2 ∧
    (insert_paper (insert_paper db p now1).2 q now2).2.filter
        (fun r => decide (r.doi = some d)) = [mkRow p now1] := by
  have hins1 : insert_paper db p now1 = (true, db ++ [mkRow p now1]) := by
    unfold insert_paper
    simp [hp, hpd, hd, hdoi]
  have hq2 : paper_exists (db ++ [mkRow p now1]) q.id = false := by
    unfold paper_exists at hq ⊢
    simp only [List.any_append, List.any_cons, List.any_nil, Bool.or_false, hq,
      Bool.false_or, mkRow, decide_eq_false_iff_not]
    exact fun h => hid h
  have hdoi2 : doi_exists (db ++ [mkRow p now1]) d = true := by
    unfold doi_exists
    simp [hd, List.any_append, mkRow, hpd]
  have hins2 : insert_paper (db ++ [mkRow p now1]) q now2 =
      (false, db ++ [mkRow p now1]) := by
    unfold insert_paper
    simp [hq2, hqd, hd, hdoi2]
  have hfilter : (db ++ [mkRow p now1]).filter
      (fun r => decide (r.doi = some d)) = [mkRow p now1] := by
    have h1 : db.filter (fun r => decide (r.doi = some d)) = [] := by
      rw [List.filter_eq_nil_iff]
      intro r hr
      unfold doi_exists at hdoi
      rw [if_neg hd, List.any_eq_false] at hdoi
      simpa using hdoi r hr
    rw [List.filter_append, h1]
    simp [mkRow, hpd]
  rw [hins1]
  exact ⟨rfl, by rw [hins2], by rw [hins2], by rw [hins2]; exact hfilter⟩

/-- C1 witness: the two sample records for DOI 10.1/x inserted into the
empty store leave exactly the first one's row. -/
theorem insert_paper_cross_source_doi_merge_witness :
    (insert_paper [] samplePaperA "t0").1 = true ∧
    (insert_paper (insert_paper [] samplePaperA "t0").2 samplePaperB "t1").1 = false ∧
    (insert_paper (insert_paper [] samplePaperA "t0").2 samplePaperB "t1").2 =
      (insert_paper [] samplePaperA "t0").2 ∧
    (insert_paper (insert_paper [] samplePaperA "t0").2 samplePaperB "t1").2.filter
        (fun r => decide (r.doi = some "10.1/x")) = [mkRow samplePaperA "t0"] :=
  insert_paper_cross_source_doi_merge [] samplePaperA samplePaperB "10.1/x" "t0" "t1"
    (by decide) rfl rfl (by decide) rfl rfl rfl

/-- C4 counterexample: with the store holding sample record A (id A1,
DOI 10.1/x), inserting sample record B (id B2, same DOI) twice stores no
row at all for id B2 — not the "exactly one stored row for p.id" the claim
asserts for every store state. -/
theorem insert_paper_idempotent_per_id_cex :
    ((insert_paper (insert_paper (insert_paper [] samplePaperA "t0").2
        samplePaperB "t1").2 samplePaperB "t2").2.filter
      (fun r => decide (r.id = samplePaperB.id))).length ≠ 1 := by decide

/-- C4 (amended): for every store state with unique ids, provided p.id is
already stored or the first insert succeeds (i.e. the insert is not
suppressed by a cross-source DOI match under a different id), inserting p
twice yields exactly one stored row for p.id; the second call returns
False and leaves the store — including every field of the previously
stored row — unchanged. -/
theorem insert_paper_idempotent_per_id
    (db : DB) (p : Paper) (now1 now2 : String)
    (hnd : (db.map StoredPaper.id).Nodup)
    (hok : paper_exists db p.id = true ∨ (insert_paper db p now1).1 = true) :
    (insert_paper (insert_paper db p now1).2 p now2).1 = false ∧
    (insert_paper (insert_paper db p now1).2 p now2).2 = (insert_paper db p now1).2 ∧
    ((insert_paper (insert_paper db p now1).2 p now2).2.filter
        (fun r => decide (r.id = p.id))).length = 1 := by
  by_cases hex : paper_exists db p.id = true
  · have hins1 : insert_paper db p now1 = (false, db) := by
      unfold insert_paper
      simp [hex]
    have hins2 : insert_paper db p now2 = (false, db) := by
      unfold insert_paper
      simp [hex]
    rw [hins1]
    simp only [hins2]
    exact ⟨trivial, trivial, filter_id_length_one_of_nodup db p.id hnd hex⟩
  · have hex' : paper_exists db p.id = false := by
      simpa using hex
    have hb1 : (insert_paper db p now1).1 = true := hok.resolve_left hex
    have hins1 : insert_paper db p now1 = (true, db ++ [mkRow p now1]) := by
      unfold insert_paper at hb1 ⊢
      rw [if_neg (by simp [hex'])] at hb1 ⊢
      by_cases hdup : (match p.doi with
          | some d => decide (d ≠ "") && doi_exists db d
          | none => false) = true
      · rw [if_pos hdup] at hb1
        exact absurd hb1 (by simp)
      · rw [if_neg hdup]
    have hex2 : paper_exists (db ++ [mkRow p now1]) p.id = true := by
      unfold paper_exists
      simp [mkRow]
    have hins2 : insert_paper (db ++ [mkRow p now1]) p now2 =
        (false, db ++ [mkRow p now1]) := by
      unfold insert_paper
      simp [hex2]
    rw [hins1]
    simp only [hins2]
    refine ⟨trivial, trivial, ?_⟩
    rw [List.filter_append, filter_id_nil_of_not_exists db p.id hex']
    simp [mkRow]

/-- C4 witness: inserting sample record A twice into the empty store leaves
exactly its one row, the second insert returning False. -/
theorem insert_paper_idempotent_per_id_witness :
    (insert_paper (insert_paper [] samplePaperA "t0").2 samplePaperA "t1").1 = false ∧
    (insert_paper (insert_paper [] samplePaperA "t0").2 samplePaperA "t1").2 =
      (insert_paper [] samplePaperA "t0").2 ∧
    ((insert_paper (insert_paper [] samplePaperA "t0").2 samplePaperA "t1").2.filter
        (fun r => decide (r.id = samplePaperA.id))).length = 1 :=
  insert_paper_idempotent_per_id [] samplePaperA "t0" "t1" (by decide)
    (Or.inr (by decide))

theorem get_journal_weight_nonneg (tiers : List JournalTier) (journal : String)
    (hw : ∀ t ∈ tiers, 0 ≤ t.weight) :
    0 ≤ get_journal_weight tiers journal := by
  unfold get_journal_weight
  cases hf : tiers.find? (fun t => journal ∈ t.journals) with
  | none => norm_num
  | some t => exact hw t (List.mem_of_find?_eq_some hf)

/-- C2: when the oracle response parses with a raw score s ∈ [0,1] and all
configured journal weights are nonnegative, the score `rank_paper`
produces (and `rank_and_update_db` then persists) is exactly
min(1.0, s * w) for the paper's journal weight w, hence never negative
and never above 1.0. -/
theorem rank_paper_score_clamp
    (parse : String → Option OracleData) (tiers : List JournalTier)
    (journal raw : String) (data : OracleData) (s : ℚ)
    (hparse : parse (stripCodeFence raw.trim) = some data)
    (hscore : data.relevance_score = some s)
    (hs0 : 0 ≤ s) (hs1 : s ≤ 1)
    (hw : ∀ t ∈ tiers, 0 ≤ t.weight) :
    (rank_paper parse tiers journal raw).relevance_score
      = min 1 (s * get_journal_weight tiers journal) ∧
    0 ≤ (rank_paper parse tiers journal raw).relevance_score ∧
    (rank_paper parse tiers journal raw).relevance_score ≤ 1 := by
  have hres : (rank_paper parse tiers journal raw).relevance_score
      = min 1 (s * get_journal_weight tiers journal) := by
    simp only [rank_paper, hparse, hscore]
    simp
  refine ⟨hres, ?_, ?_⟩
  · rw [hres]
    exact le_min (by norm_num)
      (mul_nonneg hs0 (get_journal_weight_nonneg tiers journal hw))
  · rw [hres]
    exact min_le_left _ _

/-- C2 witness: the spec's example scenario — raw score 0.9 in a journal
tier of weight 1.2 gives the stored score min(1.0, 1.08) = 1.0. -/
theorem rank_paper_score_clamp_witness :
    ((rank_paper (fun _ => some ⟨some "s", some (9/10), some "r", some []⟩)
        [⟨12/10, ["Hepatology"]⟩] "Hepatology" "x").relevance_score
      = min 1 ((9/10) * get_journal_weight [⟨12/10, ["Hepatology"]⟩] "Hepatology") ∧
    0 ≤ (rank_paper (fun _ => some ⟨some "s", some (9/10), some "r", some []⟩)
        [⟨12/10, ["Hepatology"]⟩] "Hepatology" "x").relevance_score ∧
    (rank_paper (fun _ => some ⟨some "s", some (9/10), some "r", some []⟩)
        [⟨12/10, ["Hepatology"]⟩] "Hepatology" "x").relevance_score ≤ 1) ∧
    (rank_paper (fun _ => some ⟨some "s", some (9/10), some "r", some []⟩)
        [⟨12/10, ["Hepatology"]⟩] "Hepatology" "x").relevance_score = 1 := by
  constructor
  · exact rank_paper_score_clamp (fun _ => some ⟨some "s", some (9/10), some "r", some []⟩)
      [⟨12/10, ["Hepatology"]⟩] "Hepatology" "x" ⟨some "s", some (9/10), some "r", some []⟩
      (9/10) rfl rfl (by norm_num) (by norm_num)
      (by intro t ht; simp at ht; rw [ht]; norm_num)
  · norm_num [rank_paper, stripCodeFence, get_journal_weight, List.find?]

/-- C3: when the stripped-and-defenced oracle response fails the structural
parse, `rank_paper` returns the fixed fallback result: score exactly 0.5,
the non-empty parse-failure rationale, the non-empty failure-marker
summary, and no matched projects.  The embedded function is total, so no
exception leaves the parse-failure path. -/
theorem rank_paper_parse_failure_fallback
    (parse : String → Option OracleData) (tiers : List JournalTier)
    (journal raw : String)
    (hfail : parse (stripCodeFence raw.trim) = none) :
    (rank_paper parse tiers journal raw).relevance_score = 1/2 ∧
    (rank_paper parse tiers journal raw).ranking_rationale
      = "[Failed to parse ranking response]" ∧
    (rank_paper parse tiers journal raw).ranking_rationale ≠ "" ∧
    (rank_paper parse tiers journal raw).summary = "[Failed to generate summary]" ∧
    (rank_paper parse tiers journal raw).summary ≠ "" ∧
    (rank_paper parse tiers journal raw).matched_projects = [] := by
  have hres : rank_paper parse tiers journal raw =
      { summary := "[Failed to generate summary]"
        relevance_score := 1/2
        ranking_rationale := "[Failed to parse ranking response]"
        matched_projects := [] } := by
    simp only [rank_paper, hfail]
  rw [hres]
  refine ⟨rfl, rfl, by decide, rfl, by decide, rfl⟩

/-- C3 witness: a parser rejecting everything sends a concrete plain-text
response to the fallback result. -/
theorem rank_paper_parse_failure_fallback_witness :
    (rank_paper (fun _ => none) [] "J" "not valid structured data").relevance_score = 1/2 ∧
    (rank_paper (fun _ => none) [] "J" "not valid structured data").ranking_rationale
      = "[Failed to parse ranking response]" ∧
    (rank_paper (fun _ => none) [] "J" "not valid structured data").ranking_rationale ≠ "" ∧
    (rank_paper (fun _ => none) [] "J" "not valid structured data").summary
      = "[Failed to generate summary]" ∧
    (rank_paper (fun _ => none) [] "J" "not valid structured data").summary ≠ "" ∧
    (rank_paper (fun _ => none) [] "J" "not valid structured data").matched_projects = [] :=
  rank_paper_parse_failure_fallback (fun _ => none) [] "J" "not valid structured data" rfl

/-! ### Windowed-query ordering (C5) -/

theorem nullsLastDescLe_trans (a b c : Option ℚ)
    (hab : nullsLastDescLe a b = true) (hbc : nullsLastDescLe b c = true) :
    nullsLastDescLe a c = true := by
  cases a <;> cases b <;> cases c <;>
    simp_all [nullsLastDescLe] <;> linarith

theorem nullsLastDescLe_total (a b : Option ℚ) :
    (nullsLastDescLe a b || nullsLastDescLe b a) = true := by
  cases a <;> cases b <;> simp [nullsLastDescLe] <;> exact le_total _ _

theorem nullsLastDescLe_spec (a b : StoredPaper)
    (h : nullsLastDescLe a.relevance_score b.relevance_score = true) :
    ∀ t : ℚ, b.relevance_score = some t →
      ∃ s : ℚ, a.relevance_score = some s ∧ t ≤ s := by
  intro t hb
  cases ha : a.relevance_score with
  | none =>
      rw [ha, hb] at h
      exact absurd h (by simp [nullsLastDescLe])
  | some s =>
      rw [ha, hb] at h
      exact ⟨s, rfl, by simpa [nullsLastDescLe] using h⟩

/-- C5: for every store state and every since/min-score/limit arguments, the
windowed query lists all scored rows in non-increasing score order, and
every unscored (NULL-score) row strictly after all scored rows: whenever a
later element carries a score, every earlier element carries one at least
as large. -/
theorem get_papers_since_ordering
    (db : DB) (since : String) (min_score : Option ℚ) (lim : Option Nat) :
    (get_papers_since db since min_score lim).Pairwise
      (fun a b => ∀ t : ℚ, b.relevance_score = some t →
        ∃ s : ℚ, a.relevance_score = some s ∧ t ≤ s) := by
  have hsorted := @List.sorted_mergeSort StoredPaper
    (fun a b => nullsLastDescLe a.relevance_score b.relevance_score)
    (fun a b c hab hbc => nullsLastDescLe_trans _ _ _ hab hbc)
    (fun a b => nullsLastDescLe_total _ _)
    (db.filter (fun r => sinceFilter since r && minScoreFilter min_score r))
  have himp := hsorted.imp (fun hab => nullsLastDescLe_spec _ _ hab)
  unfold get_papers_since
  match lim with
  | none => exact himp
  | some n =>
      by_cases hn : n = 0
      · simpa [hn] using himp
      · simpa [hn] using List.Pairwise.sublist (List.take_sublist n _) himp

/-- Any row of `mark_papers_digested` output keeps its id, and its digest
date is either the original one or the new timestamp. -/
theorem mark_digested_mem (db : DB) (ids : List String) (now : String) :
    ∀ r ∈ mark_papers_digested db ids now, ∃ r0 ∈ db,
      r.id = r0.id ∧
      (r.last_digest_date = r0.last_digest_date ∨ r.last_digest_date = some now) := by
  induction ids generalizing db with
  | nil => exact fun r hr => ⟨r, hr, rfl, Or.inl rfl⟩
  | cons i rest ih =>
      intro r hr
      unfold mark_papers_digested at hr
      rw [List.foldl_cons] at hr
      obtain ⟨r1, hr1, hid, hld⟩ := ih _ r hr
      obtain ⟨r0, hr0, rfl⟩ := List.mem_map.mp hr1
      by_cases h0 : r0.id = i
      · exact ⟨r0, hr0, by simpa [h0] using hid, by
          rcases hld with h | h
          · right; simpa [h0] using h
          · right; exact h⟩
      · exact ⟨r0, hr0, by simpa [h0] using hid, by simpa [h0] using hld⟩

/-- After `mark_papers_digested` over a list containing `pid`, every row
with id `pid` carries the new digest timestamp. -/
theorem mark_digested_sets_id (db : DB) (ids : List String) (pid now : String)
    (hmem : pid ∈ ids) :
    ∀ r ∈ mark_papers_digested db ids now,
      r.id = pid → r.last_digest_date = some now := by
  induction ids generalizing db with
  | nil => cases hmem
  | cons i rest ih =>
      intro r hr hrid
      unfold mark_papers_digested at hr
      rw [List.foldl_cons] at hr
      rcases List.mem_cons.mp hmem with hi | hi
      · by_cases hrest : pid ∈ rest
        · exact ih _ hrest r hr hrid
        · -- pid = i was processed first; the remaining folds preserve the stamp
          obtain ⟨r1, hr1, hid, hld⟩ := mark_digested_mem _ rest now r hr
          obtain ⟨r0, hr0, rfl⟩ := List.mem_map.mp hr1
          by_cases h0 : r0.id = i
          · rcases hld with h | h
            · simpa [h0] using h
            · exact h
          · -- the row never matched pid: its id is r0.id ≠ i = pid
            rw [if_neg h0] at hid hld
            rw [hid] at hrid
            exact absurd hrid (hi ▸ h0)
      · exact ih _ hi r hr hrid

/-- `update_paper_ranking` never changes a row's id or digest date. -/
theorem update_ranking_mem (db : DB) (pid s : String) (sc : ℚ)
    (ra : String) (mp : List String) (now : String) :
    ∀ r ∈ update_paper_ranking db pid s sc ra mp now, ∃ r0 ∈ db,
      r.id = r0.id ∧ r.last_digest_date = r0.last_digest_date := by
  intro r hr
  obtain ⟨r0, hr0, rfl⟩ := List.mem_map.mp hr
  by_cases h0 : r0.id = pid <;> exact ⟨r0, hr0, by simp [h0], by simp [h0]⟩

/-- Later score updates preserve "every row with id `pid` is stamped". -/
theorem applyRankingUpdates_preserves (updates : List RankingUpdate)
    (pid now : String) :
    ∀ db : DB, (∀ r ∈ db, r.id = pid → r.last_digest_date = some now) →
      ∀ r ∈ applyRankingUpdates db updates,
        r.id = pid → r.last_digest_date = some now := by
  induction updates with
  | nil => exact fun db h => h
  | cons u rest ih =>
      intro db h r hr hrid
      unfold applyRankingUpdates at hr
      rw [List.foldl_cons] at hr
      refine ih _ ?_ r hr hrid
      intro r1 hr1 hid1
      obtain ⟨r0, hr0, hideq, hld⟩ := update_ranking_mem db _ _ _ _ _ _ r1 hr1
      rw [hld]
      exact h r0 hr0 (hideq ▸ hid1)

/-- C6: the digest query never returns a digested or seed row, and once
`mark_papers_digested` has stamped a paper id, that id is excluded from
every subsequent digest query no matter which ranking updates happen in
between. -/
theorem get_papers_for_digest_exclusion
    (db : DB) (since : String) (min_score : Option ℚ)
    (ids : List String) (pid now : String) (updates : List RankingUpdate)
    (hmem : pid ∈ ids) :
    (∀ r ∈ get_papers_for_digest db since min_score,
        r.last_digest_date = none ∧ r.is_seed = false) ∧
    (∀ r ∈ get_papers_for_digest
        (applyRankingUpdates (mark_papers_digested db ids now) updates)
        since min_score,
        r.id ≠ pid) := by
  have hmemq : ∀ (db' : DB) (r : StoredPaper),
      r ∈ get_papers_for_digest db' since min_score →
      r ∈ db' ∧ r.last_digest_date = none ∧ r.is_seed = false := by
    intro db' r hr
    unfold get_papers_for_digest at hr
    rw [(List.mergeSort_perm _ _).mem_iff] at hr
    have := List.mem_filter.mp hr
    refine ⟨this.1, ?_, ?_⟩
    · have h2 := this.2
      simp only [Bool.and_eq_true, decide_eq_true_eq] at h2
      exact h2.1.1.2
    · have h2 := this.2
      simp only [Bool.and_eq_true, decide_eq_true_eq] at h2
      exact h2.1.2
  refine ⟨fun r hr => (hmemq db r hr).2, ?_⟩
  intro r hr hrid
  obtain ⟨hin, hnone, -⟩ := hmemq _ r hr
  have hstamp := applyRankingUpdates_preserves updates pid now
    (mark_papers_digested db ids now)
    (mark_digested_sets_id db ids pid now hmem) r hin hrid
  rw [hnone] at hstamp
  cases hstamp

/-- C6 witness: stamping the sample paper's row and then re-scoring it
still keeps it out of the digest query, and a fresh digest query returns
no stamped or seed rows. -/
theorem get_papers_for_digest_exclusion_witness :
    (∀ r ∈ get_papers_for_digest [mkRow samplePaperA "t0"] "" none,
        r.last_digest_date = none ∧ r.is_seed = false) ∧
    (∀ r ∈ get_papers_for_digest
        (applyRankingUpdates
          (mark_papers_digested [mkRow samplePaperA "t0"] ["A1"] "t1")
          [⟨"A1", "sum", 9/10, "why", [], "t2"⟩])
        "" none,
        r.id ≠ "A1") :=
  get_papers_for_digest_exclusion [mkRow samplePaperA "t0"] "" none
    ["A1"] "A1" "t1" [⟨"A1", "sum", 9/10, "why", [], "t2"⟩] (by decide)

/-! ### Seed promotion frame property (C9) -/

/-- C9: `insert_seed_paper` on an existing id returns False, creates no row,
and rewrites each matching row to seed/starred status while leaving every
identity, bibliographic and scored field of every row untouched; rows with
other ids are untouched entirely. -/
theorem insert_seed_paper_existing_frame
    (db : DB) (p : Paper) (source now : String)
    (h : paper_exists db p.id = true) :
    (insert_seed_paper db p source now).1 = false ∧
    (insert_seed_paper db p source now).2.length = db.length ∧
    List.Forall₂ (fun r r' : StoredPaper =>
        (r.id ≠ p.id → r' = r) ∧
        (r.id = p.id →
          r'.id = r.id ∧ r'.source = r.source ∧ r'.title = r.title ∧
          r'.authors = r.authors ∧ r'.journal = r.journal ∧
          r'.pub_date = r.pub_date ∧ r'.abstract = r.abstract ∧
          r'.url = r.url ∧ r'.full_text_url = r.full_text_url ∧
          r'.is_open_access = r.is_open_access ∧ r'.doi = r.doi ∧
          r'.summary = r.summary ∧ r'.relevance_score = r.relevance_score ∧
          r'.ranking_rationale = r.ranking_rationale ∧
          r'.matched_projects = r.matched_projects ∧
          r'.first_seen_date = r.first_seen_date ∧
          r'.added_to_zotero = r.added_to_zotero ∧
          r'.user_read = r.user_read ∧ r'.created_at = r.created_at ∧
          r'.last_digest_date = r.last_digest_date ∧
          r'.is_seed = true ∧ r'.seed_source = some source ∧
          r'.user_feedback = some "star" ∧ r'.feedback_date = some now ∧
          r'.updated_at = now))
      db (insert_seed_paper db p source now).2 := by
  have hres : insert_seed_paper db p source now =
      (false,
       db.map (fun r =>
         if r.id = p.id then
           { r with
             is_seed := true
             seed_source := some source
             user_feedback := some "star"
             feedback_date := some now
             updated_at := now }
         else r)) := by
    unfold insert_seed_paper
    rw [if_pos h]
  rw [hres]
  refine ⟨rfl, by simp, ?_⟩
  rw [List.forall₂_map_right_iff]
  rw [List.forall₂_same]
  intro r _
  by_cases h0 : r.id = p.id
  · exact ⟨fun hne => absurd h0 hne, fun _ => by simp [h0]⟩
  · exact ⟨fun _ => by simp [h0], fun heq => absurd heq h0⟩

/-- C9 witness: promoting the already-stored sample paper returns False and
keeps the row count at one. -/
theorem insert_seed_paper_existing_frame_witness :
    (insert_seed_paper [mkRow samplePaperA "t0"] samplePaperA "doi_lookup" "t1").1
      = false ∧
    (insert_seed_paper [mkRow samplePaperA "t0"] samplePaperA "doi_lookup" "t1").2.length
      = ([mkRow samplePaperA "t0"] : DB).length :=
  ⟨(insert_seed_paper_existing_frame [mkRow samplePaperA "t0"] samplePaperA
      "doi_lookup" "t1" (by decide)).1,
   (insert_seed_paper_existing_frame [mkRow samplePaperA "t0"] samplePaperA
      "doi_lookup" "t1" (by decide)).2.1⟩

theorem selectGo_eq_take (max_count : Nat) :
    ∀ (l selected : List FBPaper) (seen : List String),
      selected.length ≤ max_count →
      selectGo max_count l selected seen
        = selected ++ l.take (max_count - selected.length) := by
  intro l
  induction l with
  | nil => intro selected seen _; simp [selectGo]
  | cons p rest ih =>
      intro selected seen hle
      unfold selectGo
      by_cases hfull : max_count ≤ selected.length
      · rw [if_pos hfull]
        simp [Nat.sub_eq_zero_of_le hfull]
      · rw [if_neg hfull]
        have hlt : selected.length < max_count := Nat.not_le.mp hfull
        simp only [hlt, decide_True, Bool.or_true, if_true]
        rw [ih (selected ++ [p]) (seen ++ p.matched_projects)
          (by simpa using hlt)]
        have hsub : max_count - selected.length
            = (max_count - (selected.length + 1)) + 1 := by omega
        simp [hsub, List.append_assoc]

/-- C10: for max_count ≥ 1, `_select_examples` returns exactly the first
min(length, max_count) elements of the informativeness-sorted input: the
diversity condition `is_new_project or len(selected) < max_count` is
always true where it is evaluated (the quota check just above already
broke out of the loop), so no candidate is ever skipped for project
overlap. -/
theorem select_examples_eq_take (papers : List FBPaper) (max_count : Nat)
    (hmc : 1 ≤ max_count) :
    select_examples papers max_count
      = (sortedByInformativeness papers).take max_count := by
  unfold select_examples
  by_cases hp : papers.isEmpty
  · rw [if_pos hp]
    have hnil : papers = [] := by simpa using hp
    simp [hnil, sortedByInformativeness]
  · rw [if_neg hp]
    simpa using selectGo_eq_take max_count (sortedByInformativeness papers)
      [] [] (by simp)

/-- C10 witness: with two candidates sharing one project and max_count 1,
the selector returns exactly the first element of the sorted list — the
shared project causes no skip. -/
theorem select_examples_eq_take_witness :
    select_examples [⟨some (1/4), some "star", ["p1"]⟩,
        ⟨some (3/4), some "star", ["p1"]⟩] 1
      = (sortedByInformativeness [⟨some (1/4), some "star", ["p1"]⟩,
          ⟨some (3/4), some "star", ["p1"]⟩]).take 1 :=
  select_examples_eq_take [⟨some (1/4), some "star", ["p1"]⟩,
    ⟨some (3/4), some "star", ["p1"]⟩] 1 (by decide)

/-- C8 counterexample: for a dismissed paper with relevance score 0.0 the
claim says informativeness = score = 0, but the code's falsy-score
fallback (`paper.relevance_score or 0.5`) yields 0.5. -/
theorem informativeness_dismissed_zero_cex :
    dismissedZeroScorePaper.user_feedback = some "dismiss" ∧
    dismissedZeroScorePaper.relevance_score = some 0 ∧
    informativeness dismissedZeroScorePaper ≠ 0 ∧
    informativeness dismissedZeroScorePaper = 1/2 := by
  refine ⟨rfl, rfl, ?_, ?_⟩ <;>
    norm_num [informativeness, dismissedZeroScorePaper]

/-- C8 (amended): informativeness is 1 − score for a starred paper and the
score itself for a dismissed paper, where a paper whose score is absent
— or stored as exactly 0.0, which Python's `or` fallback treats like
absent — uses 0.5 in place of its score; and the selector sorts
candidates by informativeness descending before selecting. -/
theorem informativeness_metric :
    (∀ (p : FBPaper) (s : ℚ), p.user_feedback = some "star" →
        p.relevance_score = some s → s ≠ 0 → informativeness p = 1 - s) ∧
    (∀ p : FBPaper, p.user_feedback = some "star" →
        (p.relevance_score = none ∨ p.relevance_score = some 0) →
        informativeness p = 1 - 1/2) ∧
    (∀ (p : FBPaper) (s : ℚ), p.user_feedback = some "dismiss" →
        p.relevance_score = some s → s ≠ 0 → informativeness p = s) ∧
    (∀ p : FBPaper, p.user_feedback = some "dismiss" →
        (p.relevance_score = none ∨ p.relevance_score = some 0) →
        informativeness p = 1/2) ∧
    (∀ papers : List FBPaper, (sortedByInformativeness papers).Pairwise
        (fun a b => informativeness b ≤ informativeness a)) := by
  refine ⟨?_, ?_, ?_, ?_, ?_⟩
  · intro p s hfb hsc hs0
    simp [informativeness, hfb, hsc, hs0]
  · intro p hfb hsc
    rcases hsc with h | h <;> simp [informativeness, hfb, h]
  · intro p s hfb hsc hs0
    simp [informativeness, hfb, hsc, hs0]
  · intro p hfb hsc
    rcases hsc with h | h <;> simp [informativeness, hfb, h]
  · intro papers
    have hsorted := @List.sorted_mergeSort FBPaper
      (fun a b => decide (informativeness b ≤ informativeness a))
      (fun a b c hab hbc => by
        simp only [decide_eq_true_eq] at hab hbc ⊢
        exact le_trans hbc hab)
      (fun a b => by
        simp only [Bool.or_eq_true, decide_eq_true_eq]
        exact (le_total (informativeness b) (informativeness a)))
      papers
    exact hsorted.imp (fun hab => by simpa using hab)

/-- C8 witness: a starred paper scored 0.25 has informativeness 0.75, a
dismissed paper scored 0.75 has informativeness 0.75. -/
theorem informativeness_metric_witness :
    informativeness ⟨some (1/4), some "star", []⟩ = 1 - 1/4 ∧
    informativeness ⟨some (3/4), some "dismiss", []⟩ = 3/4 :=
  ⟨informativeness_metric.1 ⟨some (1/4), some "star", []⟩ (1/4) rfl rfl
      (by norm_num),
   informativeness_metric.2.2.1 ⟨some (3/4), some "dismiss", []⟩ (3/4) rfl rfl
      (by norm_num)⟩

theorem strContains_characterization (hay needle : List Char) :
    strContains hay needle = true ↔ needle <:+: hay := by
  induction hay with
  | nil => simp [strContains, List.isEmpty_iff]
  | cons c t ih =>
      simp [strContains, Bool.or_eq_true, List.isPrefixOf_iff_prefix, ih,
        List.infix_cons_iff]

theorem strContains_iff_parts (hay needle : List Char) :
    strContains hay needle = true ↔
      ∃ pre post : List Char, hay = pre ++ needle ++ post := by
  rw [strContains_characterization]
  constructor
  · rintro ⟨pre, post, h⟩
    exact ⟨pre, post, h.symm⟩
  · rintro ⟨pre, post, h⟩
    exact ⟨pre, post, h.symm⟩

/-- C7: the local matcher returns True iff every quoted phrase of the query
occurs as an exact (case-insensitively lowered) substring of the
space-joined concatenation of title and abstract, and every bare token
occurs as a substring of the same text — purely conjunctive, with no OR
or negation. -/
theorem matches_query_iff (title abstract query : String) :
    matchesQuery title abstract query = true ↔
      ((∀ ph ∈ (scanPhrases (lowerChars query)).1,
          ∃ pre post, searchText title abstract = pre ++ ph ++ post) ∧
       (∀ tm ∈ splitWsTerms (scanPhrases (lowerChars query)).2,
          ∃ pre post, searchText title abstract = pre ++ tm ++ post)) := by
  unfold matchesQuery
  simp only [Bool.and_eq_true, List.all_eq_true, strContains_iff_parts]

end LitMonitor
